import Mathlib

/-!
Verification of the network delivery engine of the `vector` repository,
centred on `src/sinks/util/service/net/tcp.rs` (the `TcpConnector` /
`TcpService` connection state machine) and `src/sinks/statsd/sink.rs`
(the sink pipeline composition).

The Rust code is shallowly embedded: asynchronous operations take their
environment (DNS results, socket results, write results, future polls) as
explicit oracle inputs, and each function returns both its result and the
observable effects it produces.
-/

namespace Vector

/-- Stand-in for `std::io::Error`: only its identity matters to the control flow. -/
abbrev IoError := String

/-- Stand-in for `crate::dns::DnsError`. -/
abbrev DnsError := String

/-- Stand-in for `std::net::IpAddr`. -/
structure IpAddr where
  repr : String
deriving DecidableEq, Repr

/-- A live TCP connection (`tokio::net::TcpStream`); the `id` gives streams an
identity so that "the same connection is handed back" is expressible. -/
structure TcpStream where
  id : Nat
deriving DecidableEq, Repr

/-- Model of `std::net::SocketAddr` as built by `SocketAddr::new(ip, port)`. -/
structure SocketAddr where
  ip : IpAddr
  port : Nat
deriving DecidableEq, Repr

/-- The `HostAndPort` value (declared in the sibling module `net/mod.rs`): target host and
mandatory port, as described by the spec's Connector Configuration. -/
structure HostAndPort where
  host : String
  port : Nat
deriving DecidableEq, Repr

/-- The error enum `TcpError` from `tcp.rs`. -/
inductive TcpError where
  | InvalidAddress (reason : String)
  | FailedToConfigure (source : IoError)
  | FailedToSend (source : IoError)
  | FailedToConnect (source : IoError)
  | NoAddresses
  | FailedToResolve (source : DnsError)
  | ServiceStreamChannelClosed
deriving DecidableEq, Repr

/-- The `TcpConnector`, as produced from `TcpConnectorConfig` by `as_connector`. -/
structure TcpConnector where
  address : HostAndPort
  send_buffer_size : Option Nat
deriving DecidableEq, Repr

/-- Oracle environment for one `TcpConnector::connect` attempt: the outcomes of
the external calls it makes, in program order. -/
structure ConnectEnv where
  /-- Result of `dns::Resolver.lookup_ip(host)`, the resolved addresses in order. -/
  lookup : Except DnsError (List IpAddr)
  /-- Result of `TcpSocket::new_v4()` / `new_v6()`. -/
  newSocket : Except IoError Unit
  /-- Result of `socket.set_send_buffer_size(n)` (consulted only when the hint is set). -/
  setSendBufferSize : Except IoError Unit
  /-- Result of `socket.connect(addr)`. -/
  connect : Except IoError TcpStream
deriving Repr

/-- Observable side effects of one `connect` attempt. -/
structure ConnectEffects where
  socketCreated : Bool
  connectAttempted : Bool
  /-- The `warn!` log emitted when the send-buffer-size hint is rejected. -/
  sendBufWarnLogged : Bool
deriving DecidableEq, Repr

/-- Translation of `TcpConnector::connect`, control-flow step by step from
`tcp.rs` lines 89–114. -/
def TcpConnector.connect (c : TcpConnector) (env : ConnectEnv) :
    Except TcpError (SocketAddr × TcpStream) × ConnectEffects :=
  match env.lookup with
  | .error e => (.error (.FailedToResolve e), ⟨false, false, false⟩)
  | .ok ips =>
    match ips.head? with
    | none => (.error .NoAddresses, ⟨false, false, false⟩)
    | some ip =>
      let addr : SocketAddr := ⟨ip, c.address.port⟩
      match env.newSocket with
      | .error e => (.error (.FailedToConfigure e), ⟨false, false, false⟩)
      | .ok _ =>
        let warned :=
          match c.send_buffer_size with
          | some _ =>
            match env.setSendBufferSize with
            | .error _ => true
            | .ok _ => false
          | none => false
        match env.connect with
        | .error e => (.error (.FailedToConnect e), ⟨true, true, warned⟩)
        | .ok stream => (.ok (addr, stream), ⟨true, true, warned⟩)

/-- Modelled from the spec: `ExponentialBackoff` lives in
`src/sinks/util/retries.rs`, which is not among the provided sources; the spec
describes its state as current delay, multiplicative factor, base delay and
capped maximum delay, with `next()` yielding `base, base·factor, base·factor²,…`
each clamped to `max_delay`, never exhausted. Delays are in milliseconds. -/
structure ExponentialBackoff where
  baseMs : Nat
  currentMs : Nat
  factorVal : Nat
  maxDelayMs : Option Nat
deriving DecidableEq, Repr

/-- Constructor `ExponentialBackoff::from_millis(base)`: start the sequence at `base`. -/
def ExponentialBackoff.from_millis (base : Nat) : ExponentialBackoff :=
  ⟨base, base, 1, none⟩

/-- Builder setting the multiplicative factor. -/
def ExponentialBackoff.factor (b : ExponentialBackoff) (f : Nat) : ExponentialBackoff :=
  ⟨b.baseMs, b.currentMs, f, b.maxDelayMs⟩

/-- Builder setting the clamp. -/
def ExponentialBackoff.max_delay (b : ExponentialBackoff) (d : Nat) : ExponentialBackoff :=
  ⟨b.baseMs, b.currentMs, b.factorVal, some d⟩

/-- Method `next()`: emit the current delay clamped to the maximum, and advance the
unclamped current delay by the factor. The spec's sequence is infinite, so the
emitted value is always `some`. -/
def ExponentialBackoff.next (b : ExponentialBackoff) : Option Nat × ExponentialBackoff :=
  let clamped :=
    match b.maxDelayMs with
    | some m => min b.currentMs m
    | none => b.currentMs
  (some clamped, ⟨b.baseMs, b.currentMs * b.factorVal, b.factorVal, b.maxDelayMs⟩)

/-- The backoff generator created at the top of `TcpConnector::connect_backoff`:
`ExponentialBackoff::from_millis(2).factor(250).max_delay(Duration::from_secs(60))`. -/
def tcpBackoff : ExponentialBackoff :=
  ((ExponentialBackoff.from_millis 2).factor 250).max_delay 60000

/-- Generator state after `n` calls to `next()`. -/
def backoffState (b : ExponentialBackoff) : Nat → ExponentialBackoff
  | 0 => b
  | n + 1 => (backoffState b n).next.snd

/-- The `n`-th delay emitted by the generator (0-based). -/
def delaySeq (b : ExponentialBackoff) (n : Nat) : Option Nat :=
  (backoffState b n).next.fst

/-! The `connect_backoff` reconnect loop. -/

/-- State of the `loop` in `TcpConnector::connect_backoff`: either still retrying
(about to run the attempt numbered `attempt`, with the current generator), or
returned with a live stream. The return type has no error alternative, mirroring
`async fn connect_backoff(&self) -> TcpStream`. -/
inductive BackoffLoopState where
  | running (attempt : Nat) (backoff : ExponentialBackoff)
  | done (stream : TcpStream)
deriving Repr

/-- Observable effects of one iteration of the reconnect loop. -/
structure BackoffStepObs where
  /-- The `TcpSocketConnectionEstablished` event emitted on success (with peer addr). -/
  established : Option SocketAddr
  /-- The `TcpSocketOutgoingConnectionError` event emitted on failure. -/
  connError : Option TcpError
  /-- Duration slept, in milliseconds: the loop runs `sleep(backoff.next().unwrap())`. -/
  sleptMs : Option Nat
deriving Repr

/-- One iteration of the `loop` in `connect_backoff` (tcp.rs lines 122–135);
`envs i` is the oracle environment of the `i`-th `connect()` attempt. -/
def connect_backoff_step (c : TcpConnector) (envs : Nat → ConnectEnv)
    (attempt : Nat) (b : ExponentialBackoff) : BackoffLoopState × BackoffStepObs :=
  match (c.connect (envs attempt)).fst with
  | .ok (addr, stream) => (.done stream, ⟨some addr, none, none⟩)
  | .error e =>
    (.running (attempt + 1) b.next.snd, ⟨none, some e, some (b.next.fst.getD 0)⟩)

/-- Loop state of `connect_backoff` after `k` iterations, starting from attempt 0
with the freshly built generator `tcpBackoff`. -/
def connect_backoff_iter (c : TcpConnector) (envs : Nat → ConnectEnv) : Nat → BackoffLoopState
  | 0 => .running 0 tcpBackoff
  | k + 1 =>
    match connect_backoff_iter c envs k with
    | .running a b => (connect_backoff_step c envs a b).fst
    | .done s => .done s

/-- Effects emitted by iteration `k` of `connect_backoff` (none once returned). -/
def connect_backoff_obs (c : TcpConnector) (envs : Nat → ConnectEnv) (k : Nat) :
    Option BackoffStepObs :=
  match connect_backoff_iter c envs k with
  | .running a b => some (connect_backoff_step c envs a b).snd
  | .done _ => none

/-! The `TcpService` state machine. -/

/-- Contents of the single-use handoff channel (`tokio::sync::oneshot`) viewed
from the receiver held in the `Sending` state. -/
inductive OneshotState where
  | empty
  | sent (v : Option TcpStream)
  | closed
deriving DecidableEq, Repr

/-- The `TcpServiceState` enum from tcp.rs; the pending future of `Connecting` is supplied by
the poll oracle, `Sending` carries the handoff receiver's observable contents. -/
inductive TcpServiceState where
  | Disconnected
  | Connecting
  | Connected (stream : TcpStream)
  | Sending (rx : OneshotState)
deriving DecidableEq, Repr

/-- Variant name of a service state, used to record transition traces. -/
inductive StateTag where
  | Disconnected
  | Connecting
  | Connected
  | Sending
deriving DecidableEq, Repr

def TcpServiceState.tag : TcpServiceState → StateTag
  | .Disconnected => .Disconnected
  | .Connecting => .Connecting
  | .Connected _ => .Connected
  | .Sending _ => .Sending

/-- Result of polling a future: `Poll::Pending` or `Poll::Ready`. -/
inductive PollFut (α : Type) where
  | Pending
  | Ready (a : α)
deriving Repr

/-- Oracle for one `poll_ready` invocation: what polling the pending
`connect_backoff` future yields this time (consulted at most once per
invocation; the `Sending` channel's contents live in the state itself). -/
structure PollEnv where
  connectPoll : PollFut TcpStream

/-- Outcome of `poll_ready`. -/
inductive PollReadyResult where
  | Pending
  | ReadyOk
  | ReadyErr (e : TcpError)
deriving DecidableEq, Repr

/-- What one arm of the `match` inside `poll_ready`'s `loop` does: reassign the
state and continue, `break` (ready), or `return` early. -/
inductive LoopStep where
  | cont (next : TcpServiceState)
  | brk
  | ret (r : PollReadyResult)

/-- One arm evaluation of the `loop` in `TcpService::poll_ready`
(tcp.rs lines 188–213), state by state. -/
def poll_ready_arm (env : PollEnv) : TcpServiceState → LoopStep
  | .Disconnected => .cont .Connecting
  | .Connecting =>
    match env.connectPoll with
    | .Pending => .ret .Pending
    | .Ready s => .cont (.Connected s)
  | .Connected _ => .brk
  | .Sending rx =>
    match rx with
    | .empty => .ret .Pending
    | .closed => .ret (.ReadyErr .ServiceStreamChannelClosed)
    | .sent (some s) => .cont (.Connected s)
    | .sent none => .cont .Disconnected

/-- The `loop` of `poll_ready`, with fuel (four iterations always suffice since
each reassignment strictly advances towards `Connected`): returns the poll
result, the state the service is left in, and the trace of states occupied,
starting with the entry state. -/
def poll_ready_loop (env : PollEnv) :
    Nat → TcpServiceState → Option (PollReadyResult × TcpServiceState × List StateTag)
  | 0, _ => none
  | k + 1, st =>
    match poll_ready_arm env st with
    | .brk => some (.ReadyOk, st, [st.tag])
    | .ret r => some (r, st, [st.tag])
    | .cont st' =>
      (poll_ready_loop env k st').map fun out => (out.fst, out.snd.fst, st.tag :: out.snd.snd)

/-- Translation of `TcpService::poll_ready` on a service in state `st`. -/
def poll_ready (st : TcpServiceState) (env : PollEnv) :
    Option (PollReadyResult × TcpServiceState × List StateTag) :=
  poll_ready_loop env 4 st

/-- Translation of `TcpService::call` (tcp.rs lines 217-244): it replaces the state with
`Sending` over a fresh (empty) channel; if the replaced state was not
`Connected`, the code hits `panic!("poll_ready must be called first")`, modelled
as the `.error` alternative. On the happy path the moved-out stream and the
request buffer are captured by the spawned write future. -/
def call (st : TcpServiceState) (buf : List Nat) :
    Except String (TcpStream × List Nat × TcpServiceState) :=
  match st with
  | .Connected stream => .ok (stream, buf, .Sending .empty)
  | _ => .error "poll_ready must be called first"

/-- Oracle for the spawned write future: outcome of `stream.write_all(&buf)`. -/
structure WriteEnv where
  write_all : Except IoError Unit
deriving Repr

/-- The spawned write future's body (tcp.rs lines 225–243): on success it sends
the stream back over the channel and resolves `Ok(buf.len())`; on failure it
sends `None` and resolves the write error. Returns (future result, what the
sender put in the handoff channel). -/
def run_send (stream : TcpStream) (buf : List Nat) (env : WriteEnv) :
    Except TcpError Nat × OneshotState :=
  match env.write_all with
  | .ok _ => (.ok buf.length, .sent (some stream))
  | .error e => (.error (.FailedToSend e), .sent none)

/-- The service observing the handoff: once the write task's send lands, the
`Sending` state's channel holds that value. -/
def deliver_handoff (st : TcpServiceState) (v : OneshotState) : TcpServiceState :=
  match st with
  | .Sending .empty => .Sending v
  | _ => st

/-! The statsd sink pipeline, from `src/sinks/statsd/sink.rs`. -/

/-- A request-build failure; `into_parts` yields message, code and the number of
events the failure dropped, exactly what `StatsdSink::run_inner` destructures. -/
structure BuildError where
  error_message : String
  error_code : String
  dropped_events : Nat
deriving DecidableEq, Repr

/-- Method `into_parts` of the builder error. -/
def BuildError.into_parts (e : BuildError) : String × String × Nat :=
  (e.error_message, e.error_code, e.dropped_events)

/-- The `StatsdEncodingError` internal event emitted for each filtered-out build
error. -/
structure StatsdEncodingError where
  error_message : String
  error_code : String
  dropped_events : Nat
deriving DecidableEq, Repr

/-- The error-filtering `filter_map` stage of `run_inner` (sink.rs lines 67–80):
build errors are turned into one `StatsdEncodingError` emission each (via
`into_parts`) and removed from the stream; built requests pass through. Returns
(requests kept for the driver, events emitted), both in stream order. -/
def filter_build_errors {Request : Type} :
    List (Except BuildError Request) → List Request × List StatsdEncodingError
  | [] => ([], [])
  | r :: rest =>
    let (reqs, errs) := filter_build_errors rest
    match r with
    | .error e =>
      let (m, c, d) := e.into_parts
      (reqs, ⟨m, c, d⟩ :: errs)
    | .ok req => (req :: reqs, errs)

/-- Translation of `StatsdSink::run_inner` (sink.rs lines 48–87) over finite
streams, with the pluggable stages as parameters: `filter_map(try_into_metric)`,
then the normalizer, then the batcher, then the incremental request builder
(one list of results per batch) flattened by `flat_map(stream::iter)`, then the
build-error filter. The first component of the result is the request stream
handed to the `Driver`; the second is the encoding-error events emitted. -/
def run_inner {Event Metric Request : Type}
    (try_into_metric : Event → Option Metric)
    (normalized_with : List Metric → List Metric)
    (batched : List Metric → List (List Metric))
    (incremental_request_builder : List Metric → List (Except BuildError Request))
    (input : List Event) : List Request × List StatsdEncodingError :=
  let metrics := input.filterMap try_into_metric
  let normalized := normalized_with metrics
  let batches := batched normalized
  let results := (batches.map incremental_request_builder).flatten
  filter_build_errors results

/-! Concrete inputs used to instantiate the universally quantified theorems. -/

/-- A concrete connector (no send-buffer hint). -/
def demoConnector : TcpConnector := ⟨⟨"statsd.example.com", 8125⟩, none⟩

/-- Concrete attempt environments for the reconnect loop: the first attempt
fails to resolve, every later one succeeds with stream 3. -/
def demoEnvs : Nat → ConnectEnv := fun n =>
  if n = 0 then ⟨.error "no records found", .ok (), .ok (), .error "refused"⟩
  else ⟨.ok [⟨"10.0.0.1"⟩], .ok (), .ok (), .ok ⟨3⟩⟩

/-! Helper lemmas about the `poll_ready` loop. -/

/-- The loop `break`s only in the `Connected` arm. -/
theorem poll_ready_arm_brk (env : PollEnv) (st : TcpServiceState)
    (h : poll_ready_arm env st = LoopStep.brk) :
    ∃ s, st = TcpServiceState.Connected s := by
  cases st with
  | Connected s => exact ⟨s, rfl⟩
  | Disconnected => simp [poll_ready_arm] at h
  | Connecting => cases hc : env.connectPoll <;> simp [poll_ready_arm, hc] at h
  | Sending rx =>
    cases rx with
    | empty => simp [poll_ready_arm] at h
    | closed => simp [poll_ready_arm] at h
    | sent v => cases v <;> simp [poll_ready_arm] at h

/-- An early `return` of the loop is never the success result: `Ok(())` is
reached only through `break`. -/
theorem poll_ready_arm_ret_not_ok (env : PollEnv) (st : TcpServiceState) (r : PollReadyResult)
    (h : poll_ready_arm env st = LoopStep.ret r) : r ≠ PollReadyResult.ReadyOk := by
  cases st with
  | Connected s => simp [poll_ready_arm] at h
  | Disconnected => simp [poll_ready_arm] at h
  | Connecting =>
    cases hc : env.connectPoll with
    | Pending =>
      simp [poll_ready_arm, hc] at h
      simp [← h]
    | Ready s => simp [poll_ready_arm, hc] at h
  | Sending rx =>
    cases rx with
    | empty =>
      simp [poll_ready_arm] at h
      simp [← h]
    | closed =>
      simp [poll_ready_arm] at h
      simp [← h]
    | sent v => cases v <;> simp [poll_ready_arm] at h

/-- Whenever the loop resolves with `Ok(())`, the final state is `Connected`. -/
theorem poll_ready_loop_ready_ok_connected (env : PollEnv) :
    ∀ (k : Nat) (st st' : TcpServiceState) (tr : List StateTag),
      poll_ready_loop env k st = some (PollReadyResult.ReadyOk, st', tr) →
      ∃ s, st' = TcpServiceState.Connected s := by
  intro k
  induction k with
  | zero => intro st st' tr h; simp [poll_ready_loop] at h
  | succ k ih =>
    intro st st' tr h
    unfold poll_ready_loop at h
    split at h
    next heq =>
      obtain ⟨s, rfl⟩ := poll_ready_arm_brk env st heq
      simp only [Option.some.injEq, Prod.mk.injEq] at h
      exact ⟨s, h.2.1.symm⟩
    next r heq =>
      simp only [Option.some.injEq, Prod.mk.injEq] at h
      exact absurd h.1 (poll_ready_arm_ret_not_ok env st r heq)
    next st2 heq =>
      cases hrec : poll_ready_loop env k st2 with
      | none => rw [hrec] at h; simp at h
      | some out =>
        rw [hrec] at h
        simp only [Option.map_some', Option.some.injEq, Prod.mk.injEq] at h
        obtain ⟨hr, hfin, -⟩ := h
        obtain ⟨s, hs⟩ := ih st2 out.snd.fst out.snd.snd (by rw [hrec, ← hr])
        exact ⟨s, hfin ▸ hs⟩

/-! The claims. -/

/-- **C1**: for every Network Service state other than `Connected`, invoking
`call(request_bytes)` — i.e. calling without a prior successful `poll_ready` —
yields the fatal fail-fast local contract-violation error (the spec's
`ProtocolViolation`, realized in the code as the
`panic!("poll_ready must be called first")` branch, modelled here as the
`.error` alternative of `call`): no send is started and nothing is retried. -/
theorem call_not_connected_is_protocol_violation
    (st : TcpServiceState) (buf : List Nat)
    (h : ∀ s, st ≠ TcpServiceState.Connected s) :
    call st buf = .error "poll_ready must be called first" := by
  cases st with
  | Connected s => exact absurd rfl (h s)
  | Disconnected => rfl
  | Connecting => rfl
  | Sending rx => rfl

/-- Witness for C1 at the concrete state `Disconnected`. -/
theorem call_not_connected_is_protocol_violation_witness :
    call TcpServiceState.Disconnected [1, 2, 3] = .error "poll_ready must be called first" :=
  call_not_connected_is_protocol_violation TcpServiceState.Disconnected [1, 2, 3]
    (fun _ h => TcpServiceState.noConfusion h)

/-- **C5**: a readiness poll that observes the single-use handoff channel closed
while the state is `Sending` (the write task terminated without signaling)
fails with `ServiceStreamChannelClosed`; the state is left unchanged, so the
error recurs on every later poll — fatal for this Service instance. -/
theorem poll_ready_channel_closed_fails (env : PollEnv) :
    poll_ready (TcpServiceState.Sending OneshotState.closed) env
      = some (PollReadyResult.ReadyErr TcpError.ServiceStreamChannelClosed,
          TcpServiceState.Sending OneshotState.closed, [StateTag.Sending]) := rfl

/-- **C10**: a `call` from `Connected` moves the stream out (state becomes
`Sending` over a fresh channel); when the write of all bytes succeeds the
future resolves `Ok(buf.len())` and the very same stream is sent back through
the channel, so the next `poll_ready` restores `Connected` with that stream
without reconnecting (trace `[Sending, Connected]`, the connect oracle unused). -/
theorem call_success_roundtrip
    (s : TcpStream) (buf : List Nat) (wenv : WriteEnv)
    (h : wenv.write_all = .ok ()) :
    call (TcpServiceState.Connected s) buf
        = .ok (s, buf, TcpServiceState.Sending OneshotState.empty)
    ∧ run_send s buf wenv = (.ok buf.length, OneshotState.sent (some s))
    ∧ ∀ env, poll_ready (deliver_handoff (TcpServiceState.Sending OneshotState.empty)
          (OneshotState.sent (some s))) env
        = some (PollReadyResult.ReadyOk, TcpServiceState.Connected s,
            [StateTag.Sending, StateTag.Connected]) := by
  refine ⟨rfl, ?_, fun env => rfl⟩
  simp [run_send, h]

/-- Witness for C10 with stream 1 and a three-byte payload. -/
theorem call_success_roundtrip_witness :
    run_send ⟨1⟩ [10, 11, 12] ⟨.ok ()⟩ = (.ok 3, OneshotState.sent (some ⟨1⟩))
    ∧ poll_ready (deliver_handoff (TcpServiceState.Sending OneshotState.empty)
          (OneshotState.sent (some ⟨1⟩))) ⟨PollFut.Pending⟩
        = some (PollReadyResult.ReadyOk, TcpServiceState.Connected ⟨1⟩,
            [StateTag.Sending, StateTag.Connected]) := by
  have h := call_success_roundtrip ⟨1⟩ [10, 11, 12] ⟨.ok ()⟩ rfl
  exact ⟨h.2.1, h.2.2 ⟨PollFut.Pending⟩⟩

/-- **C2**: when the underlying write fails, the call's future resolves with the
write error (`FailedToSend`), the handoff carries `None` (the request is not
resent — the single write is the only send), the next `poll_ready` drives the
service through `Disconnected → Connecting → Connected` (a fresh connect)
before another call can succeed, and once the send outcome is observable the
state is never left as `Sending`. -/
theorem send_failure_forces_fresh_connect
    (s s' : TcpStream) (buf : List Nat) (e : IoError) (wenv : WriteEnv)
    (h : wenv.write_all = .error e) :
    call (TcpServiceState.Connected s) buf
        = .ok (s, buf, TcpServiceState.Sending OneshotState.empty)
    ∧ run_send s buf wenv = (.error (TcpError.FailedToSend e), OneshotState.sent none)
    ∧ poll_ready (deliver_handoff (TcpServiceState.Sending OneshotState.empty)
          (OneshotState.sent none)) ⟨PollFut.Ready s'⟩
        = some (PollReadyResult.ReadyOk, TcpServiceState.Connected s',
            [StateTag.Sending, StateTag.Disconnected, StateTag.Connecting, StateTag.Connected])
    ∧ poll_ready (deliver_handoff (TcpServiceState.Sending OneshotState.empty)
          (OneshotState.sent none)) ⟨PollFut.Pending⟩
        = some (PollReadyResult.Pending, TcpServiceState.Connecting,
            [StateTag.Sending, StateTag.Disconnected, StateTag.Connecting])
    ∧ (∀ v env r st2 tr,
        poll_ready (TcpServiceState.Sending (OneshotState.sent v)) env = some (r, st2, tr) →
        st2.tag ≠ StateTag.Sending) := by
  refine ⟨rfl, by simp [run_send, h], rfl, rfl, ?_⟩
  intro v env r st2 tr hp
  obtain ⟨cp⟩ := env
  cases v with
  | some s0 =>
    have hv : poll_ready (TcpServiceState.Sending (OneshotState.sent (some s0))) ⟨cp⟩
        = some (PollReadyResult.ReadyOk, TcpServiceState.Connected s0,
            [StateTag.Sending, StateTag.Connected]) := rfl
    rw [hv] at hp
    simp only [Option.some.injEq, Prod.mk.injEq] at hp
    rw [← hp.2.1]
    simp [TcpServiceState.tag]
  | none =>
    cases cp with
    | Pending =>
      have hv : poll_ready (TcpServiceState.Sending (OneshotState.sent none)) ⟨PollFut.Pending⟩
          = some (PollReadyResult.Pending, TcpServiceState.Connecting,
              [StateTag.Sending, StateTag.Disconnected, StateTag.Connecting]) := rfl
      rw [hv] at hp
      simp only [Option.some.injEq, Prod.mk.injEq] at hp
      rw [← hp.2.1]
      simp [TcpServiceState.tag]
    | Ready s1 =>
      have hv : poll_ready (TcpServiceState.Sending (OneshotState.sent none)) ⟨PollFut.Ready s1⟩
          = some (PollReadyResult.ReadyOk, TcpServiceState.Connected s1,
              [StateTag.Sending, StateTag.Disconnected, StateTag.Connecting,
               StateTag.Connected]) := rfl
      rw [hv] at hp
      simp only [Option.some.injEq, Prod.mk.injEq] at hp
      rw [← hp.2.1]
      simp [TcpServiceState.tag]

/-- Witness for C2: a failed write of one byte over stream 5. -/
theorem send_failure_forces_fresh_connect_witness :
    run_send ⟨5⟩ [9] ⟨.error "broken pipe"⟩
        = (.error (TcpError.FailedToSend "broken pipe"), OneshotState.sent none)
    ∧ poll_ready (deliver_handoff (TcpServiceState.Sending OneshotState.empty)
          (OneshotState.sent none)) ⟨PollFut.Ready ⟨6⟩⟩
        = some (PollReadyResult.ReadyOk, TcpServiceState.Connected ⟨6⟩,
            [StateTag.Sending, StateTag.Disconnected, StateTag.Connecting,
             StateTag.Connected]) := by
  have h := send_failure_forces_fresh_connect ⟨5⟩ ⟨6⟩ [9] "broken pipe" ⟨.error "broken pipe"⟩ rfl
  exact ⟨h.2.1, h.2.2.1⟩

/-- **C9**: whenever `poll_ready` resolves `Ready(Ok(()))` the service is left
in `Connected` holding a live stream, so a caller that invokes `call` only
right after a successful `poll_ready` can never hit the
"poll_ready must be called first" panic branch: `call` succeeds. -/
theorem poll_ready_ok_implies_connected
    (st st' : TcpServiceState) (env : PollEnv) (tr : List StateTag)
    (h : poll_ready st env = some (PollReadyResult.ReadyOk, st', tr)) :
    ∃ s, st' = TcpServiceState.Connected s
      ∧ ∀ buf, call st' buf = .ok (s, buf, TcpServiceState.Sending OneshotState.empty) := by
  obtain ⟨s, rfl⟩ := poll_ready_loop_ready_ok_connected env 4 st st' tr h
  exact ⟨s, rfl, fun _ => rfl⟩

/-- Closed form of the generator state of the reconnect loop's backoff. -/
theorem backoffState_tcpBackoff (n : Nat) :
    backoffState tcpBackoff n = ⟨2, 2 * 250 ^ n, 250, some 60000⟩ := by
  induction n with
  | zero =>
    simp [backoffState, tcpBackoff, ExponentialBackoff.from_millis, ExponentialBackoff.factor,
      ExponentialBackoff.max_delay]
  | succ n ih =>
    simp [backoffState, ih, ExponentialBackoff.next, pow_succ]
    ring

/-- Closed form of the emitted delays of the reconnect loop's backoff. -/
theorem delaySeq_tcpBackoff (n : Nat) :
    delaySeq tcpBackoff n = some (min (2 * 250 ^ n) 60000) := by
  simp [delaySeq, backoffState_tcpBackoff, ExponentialBackoff.next]

/-- **C4**: the reconnect loop's backoff (base 2 ms, factor 250, max 60 s)
emits the infinite sequence 2 ms, 500 ms, 60 s, 60 s, … — each step
`base·factor^n` clamped to the maximum; `next()` never exceeds 60 s, never
decreases from one step to the next, and is never exhausted. -/
theorem backoff_sequence_clamped :
    delaySeq tcpBackoff 0 = some 2
    ∧ delaySeq tcpBackoff 1 = some 500
    ∧ (∀ n, 2 ≤ n → delaySeq tcpBackoff n = some 60000)
    ∧ (∀ n d, delaySeq tcpBackoff n = some d → d ≤ 60000)
    ∧ (∀ n d d', delaySeq tcpBackoff n = some d → delaySeq tcpBackoff (n + 1) = some d' →
        d ≤ d')
    ∧ (∀ n, (delaySeq tcpBackoff n).isSome) := by
  refine ⟨by simp [delaySeq_tcpBackoff], by simp [delaySeq_tcpBackoff], ?_, ?_, ?_, ?_⟩
  · intro n hn
    rw [delaySeq_tcpBackoff]
    have h250 : (250 : Nat) ^ 2 ≤ 250 ^ n := Nat.pow_le_pow_right (by norm_num) hn
    have h2 : (62500 : Nat) ≤ 250 ^ n := by norm_num at h250; exact h250
    have h3 : (60000 : Nat) ≤ 2 * 250 ^ n := by omega
    rw [Nat.min_eq_right h3]
  · intro n d h
    rw [delaySeq_tcpBackoff] at h
    obtain rfl : min (2 * 250 ^ n) 60000 = d := Option.some.inj h
    exact min_le_right _ _
  · intro n d d' h h'
    rw [delaySeq_tcpBackoff] at h h'
    obtain rfl : min (2 * 250 ^ n) 60000 = d := Option.some.inj h
    obtain rfl : min (2 * 250 ^ (n + 1)) 60000 = d' := Option.some.inj h'
    exact min_le_min (Nat.mul_le_mul_left 2
      (Nat.pow_le_pow_right (by norm_num) (Nat.le_succ n))) (le_refl 60000)
  · intro n
    simp [delaySeq_tcpBackoff]

/-- Witness for C4: the third delay is already clamped to one minute. -/
theorem backoff_sequence_clamped_witness :
    delaySeq tcpBackoff 2 = some 60000 :=
  backoff_sequence_clamped.2.2.1 2 (by norm_num)

/-- **C3**: the reconnect loop never gives up. While every attempt so far
failed, the loop is still running, having emitted one observable
connection-error event and slept the backoff-policy delay for each failure; if
every attempt fails it runs forever (being of `TcpStream` return type, it has
no failure exit at all); and it returns exactly when an attempt succeeds,
yielding that attempt's live connection (and an established event). -/
theorem connect_backoff_never_gives_up
    (c : TcpConnector) (envs : Nat → ConnectEnv) :
    (∀ k, (∀ i, i < k → ∃ e, (c.connect (envs i)).fst = .error e) →
      connect_backoff_iter c envs k = .running k (backoffState tcpBackoff k)
      ∧ (∀ i, i < k → ∃ e d, delaySeq tcpBackoff i = some d
          ∧ (c.connect (envs i)).fst = .error e
          ∧ connect_backoff_obs c envs i = some ⟨none, some e, some d⟩))
    ∧ ((∀ i, ∃ e, (c.connect (envs i)).fst = .error e) →
        ∀ k, connect_backoff_iter c envs k = .running k (backoffState tcpBackoff k))
    ∧ (∀ n a stream, (∀ i, i < n → ∃ e, (c.connect (envs i)).fst = .error e) →
        (c.connect (envs n)).fst = .ok (a, stream) →
        connect_backoff_obs c envs n = some ⟨some a, none, none⟩
        ∧ ∀ k, n < k → connect_backoff_iter c envs k = .done stream) := by
  have main : ∀ k, (∀ i, i < k → ∃ e, (c.connect (envs i)).fst = .error e) →
      connect_backoff_iter c envs k = .running k (backoffState tcpBackoff k)
      ∧ (∀ i, i < k → ∃ e d, delaySeq tcpBackoff i = some d
          ∧ (c.connect (envs i)).fst = .error e
          ∧ connect_backoff_obs c envs i = some ⟨none, some e, some d⟩) := by
    intro k
    induction k with
    | zero => exact fun _ => ⟨rfl, fun i hi => absurd hi (Nat.not_lt_zero i)⟩
    | succ k ih =>
      intro hfail
      have hk := ih fun i hi => hfail i (Nat.lt_succ_of_lt hi)
      obtain ⟨e, he⟩ := hfail k (Nat.lt_succ_self k)
      constructor
      · have h1 : connect_backoff_iter c envs (k + 1)
            = (connect_backoff_step c envs k (backoffState tcpBackoff k)).fst := by
          unfold connect_backoff_iter
          rw [hk.1]
        rw [h1]
        unfold connect_backoff_step
        rw [he]
        rfl
      · intro i hi
        rcases Nat.lt_succ_iff_lt_or_eq.mp hi with hlt | rfl
        · exact hk.2 i hlt
        · refine ⟨e, ((backoffState tcpBackoff i).next.fst).getD 0, rfl, he, ?_⟩
          have h2 : connect_backoff_obs c envs i
              = some (connect_backoff_step c envs i (backoffState tcpBackoff i)).snd := by
            unfold connect_backoff_obs
            rw [hk.1]
          rw [h2]
          unfold connect_backoff_step
          rw [he]
  refine ⟨main, fun hall k => (main k fun i _ => hall i).1, ?_⟩
  have done_stays : ∀ m s, connect_backoff_iter c envs m = .done s →
      ∀ k, m ≤ k → connect_backoff_iter c envs k = .done s := by
    intro m s hm k hk
    induction k, hk using Nat.le_induction with
    | base => exact hm
    | succ k hk ihk =>
      unfold connect_backoff_iter
      rw [ihk]
  intro n a stream hfail hsucc
  have hn := main n hfail
  constructor
  · have h1 : connect_backoff_obs c envs n
        = some (connect_backoff_step c envs n (backoffState tcpBackoff n)).snd := by
      unfold connect_backoff_obs
      rw [hn.1]
    rw [h1]
    unfold connect_backoff_step
    rw [hsucc]
  · intro k hk
    have hdone : connect_backoff_iter c envs (n + 1) = .done stream := by
      have h1 : connect_backoff_iter c envs (n + 1)
          = (connect_backoff_step c envs n (backoffState tcpBackoff n)).fst := by
        unfold connect_backoff_iter
        rw [hn.1]
      rw [h1]
      unfold connect_backoff_step
      rw [hsucc]
    exact done_stays (n + 1) stream hdone k hk

/-- Witness for C3: attempt 0 fails to resolve, attempt 1 succeeds; the loop
returns stream 3 and an established event, and stays returned. -/
theorem connect_backoff_never_gives_up_witness :
    connect_backoff_obs demoConnector demoEnvs 1
        = some ⟨some ⟨⟨"10.0.0.1"⟩, 8125⟩, none, none⟩
    ∧ connect_backoff_iter demoConnector demoEnvs 2 = .done ⟨3⟩ := by
  have h := (connect_backoff_never_gives_up demoConnector demoEnvs).2.2 1
    ⟨⟨"10.0.0.1"⟩, 8125⟩ ⟨3⟩
    (fun i hi => by
      have h0 : i = 0 := Nat.lt_one_iff.mp hi
      subst h0
      exact ⟨TcpError.FailedToResolve "no records found", rfl⟩)
    rfl
  exact ⟨h.1, h.2 2 Nat.one_lt_two⟩

/-- **C6**: when the optional send-buffer-size hint is set and the socket
rejects it, the failure is non-fatal: the `warn!` is logged and the attempt
proceeds to `socket.connect(addr)`, whose outcome alone decides the result —
`connect()` never returns an error because of the rejected hint. -/
theorem connect_send_buffer_hint_nonfatal
    (c : TcpConnector) (env : ConnectEnv) (n : Nat) (e : IoError)
    (ip : IpAddr) (rest : List IpAddr)
    (hbuf : c.send_buffer_size = some n)
    (hlookup : env.lookup = .ok (ip :: rest))
    (hsock : env.newSocket = .ok ())
    (hset : env.setSendBufferSize = .error e) :
    ((c.connect env).fst = match env.connect with
        | .ok stream => .ok (⟨ip, c.address.port⟩, stream)
        | .error ce => .error (TcpError.FailedToConnect ce))
    ∧ (c.connect env).snd.sendBufWarnLogged = true
    ∧ (c.connect env).snd.connectAttempted = true := by
  cases hc : env.connect <;>
    simp [TcpConnector.connect, hlookup, hsock, hbuf, hset, hc]

/-- Witness for C6: hint 1024 rejected with EINVAL, connection still succeeds. -/
theorem connect_send_buffer_hint_nonfatal_witness :
    ((TcpConnector.mk ⟨"statsd.example.com", 8125⟩ (some 1024)).connect
        ⟨.ok [⟨"10.0.0.1"⟩], .ok (), .error "EINVAL", .ok ⟨7⟩⟩).fst
      = .ok (⟨⟨"10.0.0.1"⟩, 8125⟩, ⟨7⟩)
    ∧ ((TcpConnector.mk ⟨"statsd.example.com", 8125⟩ (some 1024)).connect
        ⟨.ok [⟨"10.0.0.1"⟩], .ok (), .error "EINVAL", .ok ⟨7⟩⟩).snd.sendBufWarnLogged
      = true := by
  have h := connect_send_buffer_hint_nonfatal
    (TcpConnector.mk ⟨"statsd.example.com", 8125⟩ (some 1024))
    ⟨.ok [⟨"10.0.0.1"⟩], .ok (), .error "EINVAL", .ok ⟨7⟩⟩
    1024 "EINVAL" ⟨"10.0.0.1"⟩ [] rfl rfl rfl rfl
  exact ⟨h.1, h.2.1⟩

/-- **C7**: `connect()` fails with an address-resolution error (`FailedToResolve`
or `NoAddresses`) exactly when the name lookup fails or returns zero addresses,
and in either case no socket is created and no connection is attempted. -/
theorem connect_address_resolution
    (c : TcpConnector) (env : ConnectEnv) :
    (((∃ e, (c.connect env).fst = .error (TcpError.FailedToResolve e))
        ∨ (c.connect env).fst = .error TcpError.NoAddresses)
      ↔ ((∃ e, env.lookup = .error e) ∨ env.lookup = .ok []))
    ∧ (((∃ e, env.lookup = .error e) ∨ env.lookup = .ok []) →
        (c.connect env).snd.socketCreated = false
        ∧ (c.connect env).snd.connectAttempted = false) := by
  cases hl : env.lookup with
  | error e =>
    exact ⟨by simp [TcpConnector.connect, hl], fun _ => by simp [TcpConnector.connect, hl]⟩
  | ok ips =>
    cases ips with
    | nil =>
      exact ⟨by simp [TcpConnector.connect, hl], fun _ => by simp [TcpConnector.connect, hl]⟩
    | cons ip rest =>
      constructor
      · cases hs : env.newSocket <;> cases hc : env.connect <;>
          simp [TcpConnector.connect, hl, hs, hc]
      · intro hcontra
        rcases hcontra with ⟨e, he⟩ | he <;> simp at he

/-- Witness for C7: a lookup that returns zero addresses, so `connect` reports
`NoAddresses` with no socket created and no connection attempted. -/
theorem connect_address_resolution_witness :
    ((∃ e, ((TcpConnector.mk ⟨"statsd.example.com", 8125⟩ none).connect
          ⟨.ok [], .ok (), .ok (), .error "unused"⟩).fst
        = .error (TcpError.FailedToResolve e))
      ∨ ((TcpConnector.mk ⟨"statsd.example.com", 8125⟩ none).connect
          ⟨.ok [], .ok (), .ok (), .error "unused"⟩).fst = .error TcpError.NoAddresses)
    ∧ ((TcpConnector.mk ⟨"statsd.example.com", 8125⟩ none).connect
          ⟨.ok [], .ok (), .ok (), .error "unused"⟩).snd.socketCreated = false
    ∧ ((TcpConnector.mk ⟨"statsd.example.com", 8125⟩ none).connect
          ⟨.ok [], .ok (), .ok (), .error "unused"⟩).snd.connectAttempted = false := by
  have h := connect_address_resolution (TcpConnector.mk ⟨"statsd.example.com", 8125⟩ none)
    ⟨.ok [], .ok (), .ok (), .error "unused"⟩
  have hres := h.2 (Or.inr rfl)
  exact ⟨h.1.mpr (Or.inr rfl), hres.1, hres.2⟩

/-- Witness for C9: polling a connected service and then calling it. -/
theorem poll_ready_ok_implies_connected_witness :
    call (TcpServiceState.Connected ⟨2⟩) [7]
      = .ok (⟨2⟩, [7], TcpServiceState.Sending OneshotState.empty) := by
  obtain ⟨s, hs, hc⟩ := poll_ready_ok_implies_connected (TcpServiceState.Connected ⟨2⟩)
    (TcpServiceState.Connected ⟨2⟩) ⟨PollFut.Pending⟩ [StateTag.Connected] rfl
  injection hs with h2
  exact h2 ▸ hc [7]

/-- Characterization of the build-error filter stage: the kept requests are the
`Ok` results in order, and the emitted events are the `Err` results in order,
each carrying its `into_parts` fields. -/
theorem filter_build_errors_spec {Request : Type}
    (results : List (Except BuildError Request)) :
    filter_build_errors results
      = (results.filterMap Except.toOption,
         results.filterMap fun r =>
           match r with
           | .error e => some ⟨e.error_message, e.error_code, e.dropped_events⟩
           | .ok _ => none) := by
  induction results with
  | nil => rfl
  | cons r rest ih =>
    cases r <;> simp [filter_build_errors, ih, BuildError.into_parts, Except.toOption]

/-- Every build result is accounted exactly once: kept or dropped-with-event. -/
theorem filter_build_errors_length {Request : Type}
    (results : List (Except BuildError Request)) :
    (filter_build_errors results).fst.length + (filter_build_errors results).snd.length
      = results.length := by
  induction results with
  | nil => rfl
  | cons r rest ih => cases r <;> simp [filter_build_errors] <;> omega

/-- **C8**: the sink pipeline applies the stages in exactly the order
Normalizer, Batcher, Request Builder, build-error filter, Driver (the shape of
`run_inner`); with `results` the flattened request-builder output over the
normalized, batched metric stream, the driver receives precisely the
successfully built requests, in order; every `BuildError` entry is removed
before the driver and produces exactly one encoding-error event carrying its
dropped-event count; and kept plus dropped account for every result. -/
theorem run_inner_filters_build_errors
    {Event Metric Request : Type}
    (try_into_metric : Event → Option Metric)
    (normalized_with : List Metric → List Metric)
    (batched : List Metric → List (List Metric))
    (incremental_request_builder : List Metric → List (Except BuildError Request))
    (input : List Event) :
    (run_inner try_into_metric normalized_with batched incremental_request_builder input).fst
        = (((batched (normalized_with (input.filterMap try_into_metric))).map
              incremental_request_builder).flatten).filterMap Except.toOption
    ∧ (run_inner try_into_metric normalized_with batched incremental_request_builder input).snd
        = (((batched (normalized_with (input.filterMap try_into_metric))).map
              incremental_request_builder).flatten).filterMap (fun r =>
            match r with
            | .error e => some ⟨e.error_message, e.error_code, e.dropped_events⟩
            | .ok _ => none)
    ∧ (run_inner try_into_metric normalized_with batched
          incremental_request_builder input).fst.length
        + (run_inner try_into_metric normalized_with batched
            incremental_request_builder input).snd.length
        = (((batched (normalized_with (input.filterMap try_into_metric))).map
              incremental_request_builder).flatten).length := by
  refine ⟨?_, ?_, ?_⟩
  · simp [run_inner, filter_build_errors_spec]
  · simp [run_inner, filter_build_errors_spec]
  · simp [run_inner, filter_build_errors_length]

end Vector
